import Mathlib

/-!
Verification of the query pipeline in `src/main.py` (a single-file
interactive SQL tool): the Query Executor (`execute_query`), the
Suggestion Generator (`get_sql_suggestion`), the Explanation Generator
(`get_sql_response_explanation`) and the Interactive Shell's execute
handler (`app`, lines 178-192).

Python strings are modelled as `List Char` (`PyStr`), with the Python
string operations (`strip`, `lower`, `startswith`, `endswith`, slicing)
written out as list functions.  The external world (database, generative
model, summarization HTTP endpoint) is modelled by environment records
whose fields say how each external call behaves; the functions below
translate the Python control flow over those environments, recording the
returned value, the error/warning/success messages emitted through the
UI, the database state, and resource counts (connections opened/closed,
remote calls made, result-table materializations).
-/

/-- Python strings as character lists. -/
abbrev PyStr := List Char

/-- Python `str.isspace` characters relevant to `str.strip()`. -/
def pyIsSpace (c : Char) : Bool :=
  c = ' ' || c = '\t' || c = '\n' || c = '\r' || c = '\x0b' || c = '\x0c'

/-- Python `s.strip()`: drop whitespace from both ends. -/
def pyStrip (s : PyStr) : PyStr :=
  ((s.dropWhile pyIsSpace).reverse.dropWhile pyIsSpace).reverse

/-- Python `s.lower()` (ASCII case fold, as used on SQL keywords). -/
def pyLower (s : PyStr) : PyStr := s.map Char.toLower

/-- Python `s.startswith(p)`. -/
def pyStartsWith (p s : PyStr) : Bool := p.isPrefixOf s

/-- Python `s.endswith(p)`. -/
def pyEndsWith (p s : PyStr) : Bool := p.isSuffixOf s

/-- Python `s[7:-3]`: the characters at indices `7 ≤ i < len s - 3`. -/
def pySlice7m3 (s : PyStr) : PyStr := (s.take (s.length - 3)).drop 7

/-- A pandas DataFrame as returned by `pd.read_sql`: column names and rows. -/
structure DataFrame where
  cols : List PyStr
  rows : List (List PyStr)
deriving DecidableEq, Repr

/-- pandas `df.empty`: true when any axis has length 0. -/
def dfEmpty (df : DataFrame) : Bool := df.rows.isEmpty || df.cols.isEmpty

/-- Behaviour of the external database for one script run, over an abstract
database state `σ`.  `connOk` says whether `create_connection`'s
`engine.connect()` succeeds; `read` is the behaviour of `pd.read_sql`
(result table or raised error text); `write` is the behaviour of
`conn.execute(text(query))` inside the transaction (new state on success,
raised error text on failure). -/
structure DBEnv (σ : Type) where
  connOk : Bool
  connErr : PyStr
  read : PyStr → σ → Except PyStr DataFrame
  write : PyStr → σ → Except PyStr σ

/-- Result of `create_connection()` (main.py lines 35-44): a connection
handle on success, or `None` after an `st.error` message. -/
def create_connection {σ : Type} (env : DBEnv σ) : Option Unit × List PyStr :=
  if env.connOk then (some (), [])
  else (none, ["Error connecting to the database: ".data ++ env.connErr])

/-- Observable outcome of one `execute_query` call: the Python return value,
the `st.error` messages emitted, the final database state, how many
connections were opened and closed, and how many times `pd.read_sql` was
invoked (result-table materializations). -/
structure ExecOutcome (σ : Type) where
  ret : Option DataFrame
  errors : List PyStr
  db : σ
  opened : Nat
  closed : Nat
  reads : Nat

/-- `execute_query(query)` (main.py lines 48-67).  A connection is opened;
if the trimmed, lower-cased query starts with `"select"`, `pd.read_sql`
materializes a DataFrame which is returned after `conn.close()`; otherwise
the statement runs inside `with conn.begin()` (commit on success, rollback
on a raised error) and `None` is returned.  A raised error is caught by the
`except` clause, which emits `st.error` and returns `None` without reaching
`conn.close()`. -/
def execute_query {σ : Type} (env : DBEnv σ) (db : σ) (query : PyStr) :
    ExecOutcome σ :=
  match create_connection env with
  | (none, errs) => { ret := none, errors := errs, db := db,
                      opened := 0, closed := 0, reads := 0 }
  | (some _, _) =>
    if pyStartsWith ("select".data) (pyLower (pyStrip query)) then
      match env.read query db with
      | .ok df =>
        { ret := some df, errors := [], db := db,
          opened := 1, closed := 1, reads := 1 }
      | .error e =>
        { ret := none, errors := ["Error executing the query: ".data ++ e],
          db := db, opened := 1, closed := 0, reads := 1 }
    else
      match env.write query db with
      | .ok db2 =>
        { ret := none, errors := [], db := db2,
          opened := 1, closed := 1, reads := 0 }
      | .error e =>
        { ret := none, errors := ["Error executing the query: ".data ++ e],
          db := db, opened := 1, closed := 0, reads := 0 }

/-- Behaviour of the generative model for one `model.generate_content` call:
whether the call raises, and otherwise whether the response object has a
`text` attribute and what that text is. -/
structure GenEnv where
  raises : Bool
  errMsg : PyStr
  hasText : Bool
  text : PyStr

/-- Observable outcome of one `get_sql_suggestion` call: the returned
string, the number of remote model calls made, and the `st.error`
messages emitted. -/
structure SuggestOutcome where
  ret : PyStr
  calls : Nat
  errors : List PyStr
deriving DecidableEq, Repr

/-- The opening fence delimiter checked by the code, `"```sql"`. -/
def fsql : PyStr := "```sql".data

/-- The closing fence delimiter checked by the code, `"```"`. -/
def fend : PyStr := "```".data

/-- The fence-stripping step of `get_sql_suggestion` (main.py lines
112-116): when the text starts with `"```sql"` and ends with `"```"`,
replace it by `text[7:-3].strip()`; otherwise leave it unchanged. -/
def clean_fence (s : PyStr) : PyStr :=
  if pyStartsWith fsql s && pyEndsWith fend s then pyStrip (pySlice7m3 s)
  else s

/-- `get_sql_suggestion(user_input)` (main.py lines 71-121).  A falsy
(empty) input returns `""` before any remote call.  Otherwise the model is
called: a raised error is caught (`st.error`, return `""`); a response
without a `text` attribute returns `""`; a response with text is stripped
and fence-cleaned. -/
def get_sql_suggestion (env : GenEnv) (user_input : PyStr) : SuggestOutcome :=
  if user_input = [] then { ret := [], calls := 0, errors := [] }
  else if env.raises then
    { ret := [], calls := 1,
      errors := ["Error generating SQL suggestion: ".data ++ env.errMsg] }
  else if env.hasText then
    { ret := clean_fence (pyStrip env.text), calls := 1, errors := [] }
  else { ret := [], calls := 1, errors := [] }

/-- JSON values, as produced by `response.json()`. -/
inductive JVal where
  | jnull
  | jbool (b : Bool)
  | jnum (n : Int)
  | jstr (s : PyStr)
  | jarr (xs : List JVal)
  | jobj (fields : List (PyStr × JVal))

/-- Python `d.get(k, dflt)` on a JSON object. -/
def dictGet (o : List (PyStr × JVal)) (k : PyStr) (dflt : JVal) : JVal :=
  match o.lookup k with
  | some v => v
  | none => dflt

/-- Whether a JSON value is an object (a Python `dict`, which has `.get`). -/
def isObj : JVal → Bool
  | .jobj _ => true
  | _ => false

/-- Behaviour of the summarization HTTP endpoint for one call:
`requestFails` covers network errors and `raise_for_status` (both raise
`requests.exceptions.RequestException`); otherwise `responseJson` is the
parsed body. -/
structure HFEnv where
  requestFails : Bool
  reqErrMsg : PyStr
  responseJson : JVal

/-- Observable outcome of one `get_sql_response_explanation` call: either
the returned value (`.ok`, a JSON value since `d.get` can yield any JSON
value) or an uncaught Python exception (`.error`), plus the `st.error`
messages emitted. -/
structure ExplainOutcome where
  ret : Except PyStr JVal
  errors : List PyStr

/-- `get_sql_response_explanation(df)` (main.py lines 124-162).  A
`RequestException` is caught and yields the generic failure string.  On
HTTP success the code checks `isinstance(response_json, list) and
len(response_json) > 0`: if that fails it emits `st.error` and returns a
placeholder; if it holds it calls `response_json[0].get("summary_text",
"No summary provided.")` — which raises an uncaught `AttributeError`
whenever the first element is not a dict, since only the outer value's
type was checked.  The `df` argument only feeds the prompt text. -/
def get_sql_response_explanation (env : HFEnv) (df : DataFrame) :
    ExplainOutcome :=
  if env.requestFails then
    { ret := .ok (.jstr ("Error generating explanation.".data)),
      errors := ["Error calling Hugging Face API: ".data ++ env.reqErrMsg] }
  else
    match env.responseJson with
    | .jarr (first :: _) =>
      match first with
      | .jobj o =>
        { ret := .ok (dictGet o ("summary_text".data)
                        (.jstr ("No summary provided.".data))),
          errors := [] }
      | _ => { ret := .error ("AttributeError".data), errors := [] }
    | _ =>
      { ret := .ok (.jstr ("Unable to generate an explanation.".data)),
        errors := ["Invalid response format from Hugging Face API.".data] }

/-- The generic success/empty message of the shell. -/
def noResultMsg : PyStr :=
  "Query executed successfully, no result to display.".data

/-- The validation warning of the shell. -/
def emptyQueryWarning : PyStr := "Please enter a SQL query.".data

/-- Observable outcome of one press of the Execute Query button:
messages emitted by kind, the table rendered through `st.dataframe` (if
any), whether the Explanation Generator was called and what it produced,
whether `execute_query` was called, and the final database state. -/
structure ShellOutcome (σ : Type) where
  warnings : List PyStr
  errors : List PyStr
  successes : List PyStr
  rendered : Option DataFrame
  explainCalls : Nat
  explanation : Option (Except PyStr JVal)
  dbCalls : Nat
  db : σ

/-- The body of `if st.button("Execute Query")` in `app()` (main.py lines
178-192).  An empty (falsy) query yields only `st.warning`.  Otherwise
`execute_query` runs; if it returned a DataFrame that is not empty the
table is rendered and the Explanation Generator is called; in every other
case (`None` or an empty DataFrame) `st.success` emits the generic
message. -/
def app_execute {σ : Type} (denv : DBEnv σ) (henv : HFEnv) (db : σ)
    (query : PyStr) : ShellOutcome σ :=
  if query = [] then
    { warnings := [emptyQueryWarning], errors := [], successes := [],
      rendered := none, explainCalls := 0, explanation := none,
      dbCalls := 0, db := db }
  else
    let r := execute_query denv db query
    match r.ret with
    | some df =>
      if dfEmpty df then
        { warnings := [], errors := r.errors, successes := [noResultMsg],
          rendered := none, explainCalls := 0, explanation := none,
          dbCalls := 1, db := r.db }
      else
        let ex := get_sql_response_explanation henv df
        { warnings := [], errors := r.errors ++ ex.errors, successes := [],
          rendered := some df, explainCalls := 1, explanation := some ex.ret,
          dbCalls := 1, db := r.db }
    | none =>
      { warnings := [], errors := r.errors, successes := [noResultMsg],
        rendered := none, explainCalls := 0, explanation := none,
        dbCalls := 1, db := r.db }

/-! ### Concrete environments used to instantiate the theorems -/

/-- The shape of a well-formed `sql`-tagged fenced completion. -/
def fenced (inner : PyStr) : PyStr := fsql ++ '\n' :: inner ++ '\n' :: fend

/-- A database whose write statements fail with a constraint violation. -/
def dbEnvC1 : DBEnv Nat :=
  { connOk := true, connErr := [],
    read := fun _ _ => .ok { cols := [], rows := [] },
    write := fun _ _ => .error ("duplicate key".data) }

/-- A database on which every statement succeeds. -/
def dbEnvC2 : DBEnv Nat :=
  { connOk := true, connErr := [],
    read := fun _ _ => .ok { cols := [], rows := [] },
    write := fun _ n => .ok (n + 1) }

/-- A database whose read statements fail. -/
def dbEnvC5 : DBEnv Nat :=
  { connOk := true, connErr := [],
    read := fun _ _ => .error ("relation does not exist".data),
    write := fun _ n => .ok n }

/-- A database returning a zero-row, two-column table for reads. -/
def dbEnvC7 : DBEnv Nat :=
  { connOk := true, connErr := [],
    read := fun _ _ => .ok { cols := ["id".data, "name".data], rows := [] },
    write := fun _ n => .ok n }

/-- A database whose read statements fail with a syntax error. -/
def dbEnvC9 : DBEnv Nat :=
  { connOk := true, connErr := [],
    read := fun _ _ => .error ("syntax error".data),
    write := fun _ n => .ok n }

/-- A generative model answering a bare SQL statement. -/
def genvC3 : GenEnv :=
  { raises := false, errMsg := [], hasText := true, text := "SELECT 1;".data }

/-- A generative model whose completion is `sql`-fenced with a backtick
inside and no newline after the opening tag. -/
def genvC4 : GenEnv :=
  { raises := false, errMsg := [], hasText := true,
    text := "```sqlX`Y```".data }

/-- A generative model whose completion is a well-formed `sql` fence. -/
def genvC4w : GenEnv :=
  { raises := false, errMsg := [], hasText := true,
    text := fenced ("SELECT 1;".data) }

/-- A generative model whose completion is fenced with the `sqlite`
language tag. -/
def genvC10 : GenEnv :=
  { raises := false, errMsg := [], hasText := true,
    text := "```sqlite\nSELECT 1;\n```".data }

/-- A generative model whose completion is fenced with no language tag. -/
def genvC10w : GenEnv :=
  { raises := false, errMsg := [], hasText := true,
    text := "```\nSELECT 1\n```".data }

/-- An empty DataFrame fed to the Explanation Generator. -/
def dfC6 : DataFrame := { cols := [], rows := [] }

/-- A summarization endpoint answering a non-empty JSON array whose first
element is a number, not an object. -/
def henvC6 : HFEnv :=
  { requestFails := false, reqErrMsg := [], responseJson := .jarr [.jnum 5] }

/-- A summarization endpoint answering a one-element array of one object
with a `summary_text` field. -/
def henvC6w : HFEnv :=
  { requestFails := false, reqErrMsg := [],
    responseJson :=
      .jarr [.jobj [(("summary_text".data), .jstr ("two rows".data))]] }

/-- A summarization endpoint that is never reached in the scenarios that
use it (shell runs that render no table). -/
def henvIdle : HFEnv :=
  { requestFails := false, reqErrMsg := [], responseJson := .jnull }

/-! ### Helper lemmas about the Python string primitives -/

theorem isPrefixOf_append_self (l r : PyStr) : l.isPrefixOf (l ++ r) = true := by
  induction l with
  | nil => simp [List.isPrefixOf]
  | cons a t ih => simp [List.isPrefixOf, ih]

theorem isSuffixOf_append_self (l r : PyStr) : l.isSuffixOf (r ++ l) = true := by
  simp only [List.isSuffixOf, List.reverse_append]
  exact isPrefixOf_append_self l.reverse r.reverse

theorem dropWhile_append_of_eq_self {p : Char → Bool} {xs : PyStr} (ys : PyStr)
    (h : xs.dropWhile p = xs) (hne : xs ≠ []) :
    (xs ++ ys).dropWhile p = xs ++ ys := by
  rw [List.dropWhile_append, h]
  simp [List.isEmpty_iff, hne]

/-- `strip` of a string with no leading and no trailing whitespace, followed
by a single newline, recovers the string. -/
theorem pyStrip_append_newline (inner : PyStr)
    (h1 : inner.dropWhile pyIsSpace = inner)
    (h2 : inner.reverse.dropWhile pyIsSpace = inner.reverse) :
    pyStrip (inner ++ ['\n']) = inner := by
  by_cases hne : inner = []
  · subst hne; simp [pyStrip, pyIsSpace]
  · unfold pyStrip
    rw [dropWhile_append_of_eq_self ['\n'] h1 hne, List.reverse_append]
    have : pyIsSpace '\n' = true := by decide
    simp [this, h2]

/-- `strip` is the identity on a string whose first and last characters are
not whitespace. -/
theorem pyStrip_eq_self (s : PyStr) (a b : Char) (t u : PyStr)
    (hs : s = a :: t) (hr : s.reverse = b :: u)
    (ha : pyIsSpace a = false) (hb : pyIsSpace b = false) :
    pyStrip s = s := by
  unfold pyStrip
  rw [hs, List.dropWhile_cons_of_neg (by simp [ha]), ← hs, hr,
    List.dropWhile_cons_of_neg (by simp [hb]), ← hr, List.reverse_reverse]

theorem fenced_eq_append (inner : PyStr) :
    fenced inner = (fsql ++ '\n' :: inner ++ ['\n']) ++ fend := by
  simp [fenced]

theorem pyStrip_fenced (inner : PyStr) : pyStrip (fenced inner) = fenced inner := by
  apply pyStrip_eq_self _ (Char.ofNat 96) (Char.ofNat 96)
      ("``sql".data ++ '\n' :: inner ++ '\n' :: fend)
      (Char.ofNat 96 :: Char.ofNat 96 ::
        (('\n' :: inner ++ ['\n']).reverse ++ fsql.reverse))
  · show fsql ++ _ = _
    have : fsql = Char.ofNat 96 :: "``sql".data := by decide
    rw [this]; rfl
  · rw [fenced_eq_append, List.reverse_append]
    have : fend.reverse = [Char.ofNat 96, Char.ofNat 96, Char.ofNat 96] := by
      decide
    rw [List.append_assoc, List.reverse_append, this]; rfl
  · decide
  · decide

theorem pySlice7m3_fenced (inner : PyStr) :
    pySlice7m3 (fenced inner) = inner ++ ['\n'] := by
  unfold pySlice7m3
  rw [fenced_eq_append]
  have hlen : ((fsql ++ '\n' :: inner ++ ['\n']) ++ fend).length - 3 =
      (fsql ++ '\n' :: inner ++ ['\n']).length := by
    simp [fsql, fend]
  rw [hlen, List.take_left]
  have : fsql ++ '\n' :: inner ++ ['\n'] = (fsql ++ ['\n']) ++ (inner ++ ['\n']) := by
    simp
  rw [this]
  exact List.drop_left' (by decide)

theorem clean_fence_fenced (inner : PyStr)
    (h1 : inner.dropWhile pyIsSpace = inner)
    (h2 : inner.reverse.dropWhile pyIsSpace = inner.reverse) :
    clean_fence (fenced inner) = inner := by
  unfold clean_fence
  have hpre : pyStartsWith fsql (fenced inner) = true := by
    unfold pyStartsWith fenced
    exact isPrefixOf_append_self fsql _
  have hsuf : pyEndsWith fend (fenced inner) = true := by
    unfold pyEndsWith
    rw [fenced_eq_append]
    exact isSuffixOf_append_self fend _
  rw [hpre, hsuf]
  simp only [Bool.and_self, if_pos]
  rw [pySlice7m3_fenced]
  exact pyStrip_append_newline inner h1 h2

/-! ### Claims about the Query Executor -/

/-- C1: for every write statement (trimmed, case-folded text not starting
with "select") whose execution raises a database error, the Query Executor
leaves the database unchanged (the transaction is rolled back) and
surfaces the error to the user as a message. -/
theorem c1_write_error_rollback {σ : Type} (env : DBEnv σ) (db : σ)
    (q e : PyStr)
    (hc : env.connOk = true)
    (hsel : pyStartsWith ("select".data) (pyLower (pyStrip q)) = false)
    (hw : env.write q db = .error e) :
    (execute_query env db q).db = db ∧
    (execute_query env db q).errors =
      ["Error executing the query: ".data ++ e] := by
  simp [execute_query, create_connection, hc, hsel, hw]

/-- Witness for C1: a failing INSERT leaves the state at 5 and emits the
error message. -/
theorem c1_write_error_rollback_witness :
    (execute_query dbEnvC1 5 ("insert into t values (1)".data)).db = 5 ∧
    (execute_query dbEnvC1 5 ("insert into t values (1)".data)).errors =
      ["Error executing the query: ".data ++ "duplicate key".data] :=
  c1_write_error_rollback dbEnvC1 5 ("insert into t values (1)".data)
    ("duplicate key".data) rfl (by decide) rfl

/-- C2: for every query whose trimmed, lower-cased form does not start with
"select", the Query Executor takes the write path: `pd.read_sql` is never
invoked (no result table is materialized) and the returned value is `None`
(in particular on successful execution). -/
theorem c2_nonselect_returns_none {σ : Type} (env : DBEnv σ) (db : σ)
    (q : PyStr)
    (hsel : pyStartsWith ("select".data) (pyLower (pyStrip q)) = false) :
    (execute_query env db q).reads = 0 ∧
    (execute_query env db q).ret = none := by
  cases hco : env.connOk <;> cases hw : env.write q db <;>
    simp [execute_query, create_connection, hco, hsel, hw]

/-- Witness for C2: a successful UPDATE materializes nothing and returns
`None`. -/
theorem c2_nonselect_returns_none_witness :
    (execute_query dbEnvC2 0 ("update t set x = 1".data)).reads = 0 ∧
    (execute_query dbEnvC2 0 ("update t set x = 1".data)).ret = none :=
  c2_nonselect_returns_none dbEnvC2 0 ("update t set x = 1".data) (by decide)

/-- Counterexample for C5: on the read path with a raised database error,
the connection opened for the query is not closed before `execute_query`
returns — the `except` handler returns `None` without reaching
`conn.close()`. -/
theorem c5_connection_always_closed_counterexample :
    (execute_query dbEnvC5 0 ("select 1".data)).opened = 1 ∧
    (execute_query dbEnvC5 0 ("select 1".data)).closed = 0 := by decide

/-- C5 (amended): when a connection is successfully opened, it is closed
before the call returns on the successful read path and the successful
write path; on every error path (a raised read or write error) the
connection is left unclosed. -/
theorem c5_connection_closed_on_success {σ : Type} (env : DBEnv σ) (db : σ)
    (q : PyStr) (hc : env.connOk = true) :
    (execute_query env db q).opened = 1 ∧
    ((execute_query env db q).errors = [] →
      (execute_query env db q).closed = 1) ∧
    ((execute_query env db q).errors ≠ [] →
      (execute_query env db q).closed = 0) := by
  by_cases hsel : pyStartsWith ("select".data) (pyLower (pyStrip q)) = true
  · cases hr : env.read q db <;>
      simp [execute_query, create_connection, hc, hsel, hr]
  · cases hw : env.write q db <;>
      simp [execute_query, create_connection, hc, hsel, hw]

/-- Witness for C5 (amended): on a read that raises, the connection stays
open; the same environment shows `opened = 1`. -/
theorem c5_connection_closed_on_success_witness :
    (execute_query dbEnvC5 1 ("select 1".data)).opened = 1 ∧
    ((execute_query dbEnvC5 1 ("select 1".data)).errors = [] →
      (execute_query dbEnvC5 1 ("select 1".data)).closed = 1) ∧
    ((execute_query dbEnvC5 1 ("select 1".data)).errors ≠ [] →
      (execute_query dbEnvC5 1 ("select 1".data)).closed = 0) :=
  c5_connection_closed_on_success dbEnvC5 1 ("select 1".data) rfl

/-- C9: whenever executing a query raises a database error (including a
connection failure), `execute_query` returns `None` — the same value as a
successful write — and the Interactive Shell, besides displaying the
error, emits the generic success/empty message. -/
theorem c9_error_indistinguishable_from_write {σ : Type} (denv : DBEnv σ)
    (henv : HFEnv) (db : σ) (q : PyStr)
    (hq : q ≠ [])
    (herr : (execute_query denv db q).errors ≠ []) :
    (execute_query denv db q).ret = none ∧
    (app_execute denv henv db q).errors = (execute_query denv db q).errors ∧
    (app_execute denv henv db q).successes = [noResultMsg] := by
  have hret : (execute_query denv db q).ret = none := by
    by_cases hco : denv.connOk = true
    · by_cases hsel :
        pyStartsWith ("select".data) (pyLower (pyStrip q)) = true
      · cases hr : denv.read q db with
        | error e => simp [execute_query, create_connection, hco, hsel, hr]
        | ok df =>
          exfalso
          exact herr (by simp [execute_query, create_connection, hco, hsel, hr])
      · cases hw : denv.write q db <;>
          simp [execute_query, create_connection, hco, hsel, hw]
    · simp only [Bool.not_eq_true] at hco
      simp [execute_query, create_connection, hco]
  refine ⟨hret, ?_, ?_⟩ <;> simp [app_execute, hq, hret]

/-- Witness for C9: a failing SELECT makes the shell display the error and
then the generic success message, with `execute_query` returning `None`. -/
theorem c9_error_indistinguishable_from_write_witness :
    (execute_query dbEnvC9 0 ("select * from t".data)).ret = none ∧
    (app_execute dbEnvC9 henvIdle 0 ("select * from t".data)).errors =
      (execute_query dbEnvC9 0 ("select * from t".data)).errors ∧
    (app_execute dbEnvC9 henvIdle 0 ("select * from t".data)).successes =
      [noResultMsg] :=
  c9_error_indistinguishable_from_write dbEnvC9 henvIdle 0
    ("select * from t".data) (by decide) (by decide)

/-! ### Claims about the Suggestion Generator -/

/-- Counterexample for C3: the intent `" "` is whitespace-only but not
empty, so `if not user_input` is false and a remote model call is made
(and a non-empty suggestion is returned). -/
theorem c3_empty_intent_counterexample :
    pyStrip (" ".data) = [] ∧
    (get_sql_suggestion genvC3 (" ".data)).calls = 1 ∧
    (get_sql_suggestion genvC3 (" ".data)).ret = "SELECT 1;".data := by
  decide

/-- C3 (amended): only the exactly-empty intent string short-circuits to an
empty suggestion with no remote call; every non-empty intent, including
whitespace-only ones, triggers exactly one remote model call. -/
theorem c3_empty_intent_no_call (env : GenEnv) :
    (get_sql_suggestion env []).ret = [] ∧
    (get_sql_suggestion env []).calls = 0 ∧
    ∀ u : PyStr, u ≠ [] → (get_sql_suggestion env u).calls = 1 := by
  refine ⟨rfl, rfl, fun u hu => ?_⟩
  by_cases hr : env.raises = true <;> by_cases ht : env.hasText = true <;>
    simp [get_sql_suggestion, hu, hr, ht]

/-- Witness for C3 (amended): the whitespace-only intent `" "` makes one
remote call. -/
theorem c3_empty_intent_no_call_witness :
    (get_sql_suggestion genvC3 (" ".data)).calls = 1 :=
  (c3_empty_intent_no_call genvC3).2.2 (" ".data) (by decide)

/-- Counterexample for C4: the fenced completion `"```sqlX`Y```"` (inner
SQL text `"X`Y"`) is cleaned to `"`Y"`: the output still contains a fence
delimiter character (a backtick) and is not the inner text verbatim —
character 7, here `X`, is dropped by the `[7:-3]` slice. -/
theorem c4_fence_strip_counterexample :
    (get_sql_suggestion genvC4 ("x".data)).ret = "`Y".data ∧
    ((get_sql_suggestion genvC4 ("x".data)).ret).contains (Char.ofNat 96)
      = true ∧
    (get_sql_suggestion genvC4 ("x".data)).ret ≠ "X`Y".data := by
  decide

/-- C4 (amended): cleaning drops the first 7 and last 3 characters of the
trimmed completion and strips whitespace; for a completion of the shape
open fence + `sql` tag + newline + inner text + newline + close fence,
where the inner text has no leading/trailing whitespace, the cleaned
output equals the inner text exactly, and contains no backtick when the
inner text has none. -/
theorem c4_fence_strip_clean (env : GenEnv) (u inner : PyStr)
    (hu : u ≠ []) (hr : env.raises = false) (hh : env.hasText = true)
    (ht : env.text = fenced inner)
    (h1 : inner.dropWhile pyIsSpace = inner)
    (h2 : inner.reverse.dropWhile pyIsSpace = inner.reverse)
    (hb : ∀ c ∈ inner, c ≠ Char.ofNat 96) :
    (get_sql_suggestion env u).ret = inner ∧
    ∀ c ∈ (get_sql_suggestion env u).ret, c ≠ Char.ofNat 96 := by
  have hret : (get_sql_suggestion env u).ret = inner := by
    simp [get_sql_suggestion, hu, hr, hh, ht, pyStrip_fenced,
      clean_fence_fenced inner h1 h2]
  exact ⟨hret, by rw [hret]; exact hb⟩

/-- Witness for C4 (amended): a well-formed fenced `SELECT 1;` is cleaned
to exactly `SELECT 1;`. -/
theorem c4_fence_strip_clean_witness :
    (get_sql_suggestion genvC4w ("x".data)).ret = "SELECT 1;".data :=
  (c4_fence_strip_clean genvC4w ("x".data) ("SELECT 1;".data) (by decide)
    rfl rfl rfl (by decide) (by decide) (by decide)).1

/-- Counterexample for C10: the completion fenced with the different
language tag `sqlite` is not returned intact: `"```sqlite\nSELECT
1;\n```"` passes the `startswith("```sql")` check, so the code strips (and
mangles) it to `"te\nSELECT 1;"`. -/
theorem c10_other_tag_counterexample :
    (get_sql_suggestion genvC10 ("x".data)).ret = "te\nSELECT 1;".data ∧
    (get_sql_suggestion genvC10 ("x".data)).ret ≠ pyStrip genvC10.text := by
  decide

/-- C10 (amended): fence stripping applies exactly when the trimmed
completion starts with the six characters of the open-fence-plus-`sql` tag
as a string prefix — which also matches tags extending `sql`, such as
`sqlite` — and ends with the close fence; when either check fails (an
untagged fence, or a tag not beginning with `sql`) the trimmed completion
is returned with its fence delimiters intact. -/
theorem c10_no_strip_when_check_fails (env : GenEnv) (u : PyStr)
    (hu : u ≠ []) (hr : env.raises = false) (hh : env.hasText = true)
    (hnot : pyStartsWith fsql (pyStrip env.text) = false ∨
      pyEndsWith fend (pyStrip env.text) = false) :
    (get_sql_suggestion env u).ret = pyStrip env.text := by
  have hcf : clean_fence (pyStrip env.text) = pyStrip env.text := by
    unfold clean_fence
    rcases hnot with h | h <;> simp [h]
  simp [get_sql_suggestion, hu, hr, hh, hcf]

/-- Witness for C10 (amended): an untagged fenced completion is returned
unchanged, delimiters included. -/
theorem c10_no_strip_when_check_fails_witness :
    (get_sql_suggestion genvC10w ("x".data)).ret = pyStrip genvC10w.text :=
  c10_no_strip_when_check_fails genvC10w ("x".data) (by decide) rfl rfl
    (Or.inl (by decide))

/-! ### Claims about the Explanation Generator -/

/-- Counterexample for C6: on HTTP success with body `[5]` — a non-empty
sequence whose first element is not an object, hence an unexpected
response shape — the code raises an uncaught `AttributeError` from
`response_json[0].get(...)` instead of returning a placeholder message:
only the outer value was checked with `isinstance(..., list)`. -/
theorem c6_summary_extraction_counterexample :
    (get_sql_response_explanation henvC6 dfC6).ret =
      .error ("AttributeError".data) := rfl

/-- C6 (amended): on HTTP success, a response that is not a sequence or is
an empty sequence yields the placeholder message; a non-empty sequence
whose first element is an object yields that object's `summary_text` field
(or the `No summary provided.` placeholder when the field is absent); but
a non-empty sequence whose first element is not an object raises an
uncaught `AttributeError`. -/
theorem c6_summary_extraction (env : HFEnv) (df : DataFrame)
    (hok : env.requestFails = false) :
    (∀ o rest, env.responseJson = .jarr (.jobj o :: rest) →
      (get_sql_response_explanation env df).ret =
        .ok (dictGet o ("summary_text".data)
          (.jstr ("No summary provided.".data)))) ∧
    ((∀ xs, env.responseJson ≠ .jarr xs) ∨ env.responseJson = .jarr [] →
      (get_sql_response_explanation env df).ret =
        .ok (.jstr ("Unable to generate an explanation.".data))) ∧
    (∀ x rest, env.responseJson = .jarr (x :: rest) → isObj x = false →
      (get_sql_response_explanation env df).ret =
        .error ("AttributeError".data)) := by
  refine ⟨?_, ?_, ?_⟩
  · intro o rest h
    simp [get_sql_response_explanation, hok, h]
  · intro h
    rcases h with h | h
    · cases hj : env.responseJson
      case jarr xs => exact absurd hj (h xs)
      all_goals simp [get_sql_response_explanation, hok, hj]
    · simp [get_sql_response_explanation, hok, h]
  · intro x rest h hx
    cases x <;>
      simp_all [get_sql_response_explanation, hok, isObj]

/-- Witness for C6 (amended): a one-object array with a `summary_text`
field yields that field's value. -/
theorem c6_summary_extraction_witness :
    (get_sql_response_explanation henvC6w dfC6).ret =
      .ok (.jstr ("two rows".data)) := by
  have h := (c6_summary_extraction henvC6w dfC6 rfl).1
    [(("summary_text".data), .jstr ("two rows".data))] [] rfl
  rw [h]; rfl

/-! ### Claims about the Interactive Shell -/

/-- C7: a read statement that executes successfully and returns zero rows
makes the shell emit the generic "no result to display" message, render no
table, and make no Explanation Generator call. -/
theorem c7_empty_read_no_render {σ : Type} (denv : DBEnv σ) (henv : HFEnv)
    (db : σ) (q : PyStr) (cols : List PyStr)
    (hq : q ≠ [])
    (hc : denv.connOk = true)
    (hsel : pyStartsWith ("select".data) (pyLower (pyStrip q)) = true)
    (hread : denv.read q db = .ok { cols := cols, rows := [] }) :
    (app_execute denv henv db q).successes = [noResultMsg] ∧
    (app_execute denv henv db q).rendered = none ∧
    (app_execute denv henv db q).explainCalls = 0 := by
  have hret : (execute_query denv db q).ret =
      some { cols := cols, rows := [] } := by
    simp [execute_query, create_connection, hc, hsel, hread]
  simp [app_execute, hq, hret, dfEmpty]

/-- Witness for C7: a zero-row SELECT on a two-column table. -/
theorem c7_empty_read_no_render_witness :
    (app_execute dbEnvC7 henvIdle 0 ("select * from t".data)).successes =
      [noResultMsg] ∧
    (app_execute dbEnvC7 henvIdle 0 ("select * from t".data)).rendered =
      none ∧
    (app_execute dbEnvC7 henvIdle 0 ("select * from t".data)).explainCalls
      = 0 :=
  c7_empty_read_no_render dbEnvC7 henvIdle 0 ("select * from t".data)
    ["id".data, "name".data] (by decide) rfl (by decide) rfl

/-- C8: triggering the execute action with an empty query field emits the
validation warning and performs no database call — `execute_query` is
never invoked. -/
theorem c8_empty_query_warning {σ : Type} (denv : DBEnv σ) (henv : HFEnv)
    (db : σ) :
    (app_execute denv henv db []).warnings = [emptyQueryWarning] ∧
    (app_execute denv henv db []).dbCalls = 0 := by
  simp [app_execute]
